import Mathlib

/-!
# Verification of the P4Runtime switch-connection client (`utils/p4runtime_lib/switch.py`)

A shallow embedding of the stream multiplexing and lifecycle subsystem:
the `StreamDispatcher` dispatch loop, the closeable `IterableQueue` used as
the outbound request stream, the `SwitchConnection` operation surface
(arbitration, pipeline config, table writes, packet in/out, idle-timeout
pull, shutdown), the process-wide connection registry with
`ShutdownAllSwitchConnections`, and the `GrpcRequestLogger` sink.

Python side effects are made explicit: each operation is a function from a
connection state to a result plus a new connection state; the state records
the outbound queue contents, the four delivery queues, the synchronous
transport calls made so far, and everything printed.  A blocking `get` from
a queue is modelled on the queue's list contents (an empty queue would
block; theorems about pulls therefore work on a queue with explicit
contents).  Python exceptions are modelled with `Option` / an explicit
abort flag where a claim needs them.
-/

set_option maxRecDepth 2048

namespace P4Switch

/-! ## Inbound messages (`p4runtime_pb2.StreamMessageResponse`)

The protobuf message carries a oneof with four variants; a message with
none of them populated is the `unknown` case (all `HasField` checks fail).
Payloads are abstracted as `Nat` identifiers: the dispatch loop never
inspects a payload, it only routes it. -/

inductive StreamMessageResponse where
  | arbitration (payload : Nat)
  | packet (payload : Nat)
  | idle_timeout_notification (payload : Nat)
  | error (payload : Nat)
  | unknown (raw : Nat)
deriving DecidableEq, Repr

/-- `msg.HasField` succeeds for one of the four routed variants. -/
def StreamMessageResponse.isWellFormed : StreamMessageResponse → Bool
  | .arbitration _ => true
  | .packet _ => true
  | .idle_timeout_notification _ => true
  | .error _ => true
  | .unknown _ => false

def arbitrationPayload : StreamMessageResponse → Option Nat
  | .arbitration p => some p
  | _ => none

def packetPayload : StreamMessageResponse → Option Nat
  | .packet p => some p
  | _ => none

def timeoutPayload : StreamMessageResponse → Option Nat
  | .idle_timeout_notification p => some p
  | _ => none

def errorPayload : StreamMessageResponse → Option Nat
  | .error p => some p
  | _ => none

/-! ## `StreamDispatcher`

State of the dispatcher: the `running` flag and the four delivery queues
(`Queue` contents as lists, oldest first).  `log` records the messages
printed by the `else` branch of the dispatch loop. -/

structure StreamDispatcher where
  running : Bool
  arbitration_queue : List Nat
  packet_in_queue : List Nat
  timeout_queue : List Nat
  error_queue : List Nat
  log : List StreamMessageResponse
deriving DecidableEq, Repr

/-- Dispatcher state right after `__init__` (before any inbound message):
`running = True`, four empty queues. -/
def StreamDispatcher.init : StreamDispatcher :=
  { running := true
    arbitration_queue := []
    packet_in_queue := []
    timeout_queue := []
    error_queue := []
    log := [] }

/-- Body of one iteration of `_dispatch_loop`: inspect which variant is
populated (in the order of the `HasField` checks) and push the payload onto
the matching queue; a message with no variant populated is printed and
dropped. -/
def dispatchStep (s : StreamDispatcher) : StreamMessageResponse → StreamDispatcher
  | .arbitration p => { s with arbitration_queue := s.arbitration_queue ++ [p] }
  | .packet p => { s with packet_in_queue := s.packet_in_queue ++ [p] }
  | .idle_timeout_notification p => { s with timeout_queue := s.timeout_queue ++ [p] }
  | .error p => { s with error_queue := s.error_queue ++ [p] }
  | .unknown r => { s with log := s.log ++ [.unknown r] }

/-- `_dispatch_loop` over a finite prefix of the inbound stream: for each
message, first check `self.running` (break when false), then route the
message.  The loop also ends when the stream ends (list exhausted). -/
def dispatch_loop (s : StreamDispatcher) : List StreamMessageResponse → StreamDispatcher
  | [] => s
  | msg :: rest => if s.running then dispatch_loop (dispatchStep s msg) rest else s

/-- `StreamDispatcher.stop`: set the `running` flag to `False`; nothing else. -/
def StreamDispatcher.stop (s : StreamDispatcher) : StreamDispatcher :=
  { s with running := false }

lemma dispatchStep_running (s : StreamDispatcher) (m : StreamMessageResponse) :
    (dispatchStep s m).running = s.running := by
  cases m <;> rfl

lemma dispatchStep_log_of_wellFormed (s : StreamDispatcher) (m : StreamMessageResponse)
    (h : m.isWellFormed = true) : (dispatchStep s m).log = s.log := by
  cases m <;> simp_all [dispatchStep, StreamMessageResponse.isWellFormed]

/-- While `running` is true the loop never breaks: it folds `dispatchStep`
over the whole message list. -/
lemma dispatch_loop_of_running (msgs : List StreamMessageResponse) :
    ∀ s : StreamDispatcher, s.running = true →
      dispatch_loop s msgs = msgs.foldl dispatchStep s := by
  induction msgs with
  | nil => intro s _; rfl
  | cons m rest ih =>
      intro s hs
      simp only [dispatch_loop, hs, if_true, List.foldl_cons]
      exact ih _ (by rw [dispatchStep_running]; exact hs)

lemma foldl_dispatchStep_arbitration (msgs : List StreamMessageResponse) :
    ∀ s : StreamDispatcher,
      (msgs.foldl dispatchStep s).arbitration_queue =
        s.arbitration_queue ++ msgs.filterMap arbitrationPayload := by
  induction msgs with
  | nil => intro s; simp
  | cons m rest ih =>
      intro s
      cases m <;>
        simp [List.foldl_cons, ih, dispatchStep, arbitrationPayload, List.append_assoc]

lemma foldl_dispatchStep_packet (msgs : List StreamMessageResponse) :
    ∀ s : StreamDispatcher,
      (msgs.foldl dispatchStep s).packet_in_queue =
        s.packet_in_queue ++ msgs.filterMap packetPayload := by
  induction msgs with
  | nil => intro s; simp
  | cons m rest ih =>
      intro s
      cases m <;>
        simp [List.foldl_cons, ih, dispatchStep, packetPayload, List.append_assoc]

lemma foldl_dispatchStep_timeout (msgs : List StreamMessageResponse) :
    ∀ s : StreamDispatcher,
      (msgs.foldl dispatchStep s).timeout_queue =
        s.timeout_queue ++ msgs.filterMap timeoutPayload := by
  induction msgs with
  | nil => intro s; simp
  | cons m rest ih =>
      intro s
      cases m <;>
        simp [List.foldl_cons, ih, dispatchStep, timeoutPayload, List.append_assoc]

lemma foldl_dispatchStep_error (msgs : List StreamMessageResponse) :
    ∀ s : StreamDispatcher,
      (msgs.foldl dispatchStep s).error_queue =
        s.error_queue ++ msgs.filterMap errorPayload := by
  induction msgs with
  | nil => intro s; simp
  | cons m rest ih =>
      intro s
      cases m <;>
        simp [List.foldl_cons, ih, dispatchStep, errorPayload, List.append_assoc]

/-! ## `IterableQueue`

An unbounded FIFO whose items are either real messages or the private
`_sentinel` object (a fresh `object()` that is never a valid message — the
sum type makes that precise).  `__iter__` is `iter(self.get, self._sentinel)`:
repeatedly `get` and stop the moment the sentinel comes out. -/

inductive QItem (α : Type) where
  | msg (m : α)
  | sentinel
deriving DecidableEq, Repr

/-- Queue contents, oldest first. -/
abbrev IterableQueue (α : Type) := List (QItem α)

/-- `Queue.put`: enqueue at the tail (unbounded, never blocks). -/
def IterableQueue.put (q : IterableQueue α) (m : α) : IterableQueue α :=
  q ++ [QItem.msg m]

/-- `IterableQueue.close`: put the sentinel. -/
def IterableQueue.close (q : IterableQueue α) : IterableQueue α :=
  q ++ [QItem.sentinel]

/-- The sequence produced by `iter(self.get, self._sentinel)` over the
queue's contents: yield each dequeued message until the sentinel is
dequeued; the sentinel itself is not yielded and nothing after it is
read.  (A `get` on an empty, never-closed queue blocks; this model only
describes the items actually yielded from the given contents.) -/
def IterableQueue.iterate : IterableQueue α → List α
  | [] => []
  | QItem.sentinel :: _ => []
  | QItem.msg m :: rest => m :: IterableQueue.iterate rest

lemma IterableQueue.put_foldl (ps : List α) :
    ∀ q : IterableQueue α, ps.foldl IterableQueue.put q = q ++ ps.map QItem.msg := by
  induction ps with
  | nil => intro q; simp
  | cons p rest ih => intro q; simp [IterableQueue.put, ih, List.append_assoc]

lemma IterableQueue.iterate_msgs_append (ps : List α) (tail : IterableQueue α) :
    IterableQueue.iterate (ps.map QItem.msg ++ tail) =
      ps ++ IterableQueue.iterate tail := by
  induction ps with
  | nil => simp
  | cons p rest ih => simp [IterableQueue.iterate, ih]

/-! ## Outbound requests (`p4runtime_pb2` messages)

Only the structure the claims need is modelled; opaque protobuf payloads
(p4info, serialized device configs, table-entry match/action contents,
packet bytes) are abstracted as `Nat` identifiers. -/

structure ElectionId where
  high : Nat
  low : Nat
deriving DecidableEq, Repr

structure MasterArbitrationUpdateMsg where
  device_id : Nat
  election_id : ElectionId
deriving DecidableEq, Repr

/-- `PacketMetadata`: a metadata id plus the encoded byte string
(each byte a `Nat < 256`). -/
structure PacketMetadata where
  metadata_id : Nat
  value : List Nat
deriving DecidableEq, Repr

structure PacketOutMsg where
  payload : Nat
  metadata : List PacketMetadata
deriving DecidableEq, Repr

/-- `StreamMessageRequest`: what `requests_stream` carries. -/
inductive StreamMessageRequest where
  | arbitration (m : MasterArbitrationUpdateMsg)
  | packet (p : PacketOutMsg)
deriving DecidableEq, Repr

inductive UpdateType where
  | INSERT
  | MODIFY
  | DELETE
deriving DecidableEq, Repr

structure TableEntry where
  table_id : Nat
  is_default_action : Bool
  content : Nat
deriving DecidableEq, Repr

inductive Entity where
  | table_entry (te : TableEntry)
  | packet_replication_engine_entry (pre : Nat)
deriving DecidableEq, Repr

structure Update where
  type : UpdateType
  entity : Entity
deriving DecidableEq, Repr

structure WriteRequest where
  device_id : Nat
  election_id_low : Nat
  updates : List Update
deriving DecidableEq, Repr

inductive ReadEntity where
  | table_entry (table_id : Nat)
  | counter_entry (counter_id : Nat) (index : Option Nat)
deriving DecidableEq, Repr

structure ReadRequest where
  device_id : Nat
  entities : List ReadEntity
deriving DecidableEq, Repr

inductive PipelineAction where
  | VERIFY_AND_COMMIT
deriving DecidableEq, Repr

structure SetForwardingPipelineConfigRequest where
  device_id : Nat
  election_id_low : Nat
  p4info : Nat
  p4_device_config : Nat
  action : PipelineAction
deriving DecidableEq, Repr

/-- A synchronous call made on `self.client_stub`. -/
inductive UnaryCall where
  | setForwardingPipelineConfig (r : SetForwardingPipelineConfigRequest)
  | write (r : WriteRequest)
  | read (r : ReadRequest)
deriving DecidableEq, Repr

/-- Something printed by a dry-run branch (or by the dry-run branch of a
pull operation, which prints the pulled payload). -/
inductive PrintEvent where
  | masterArbitrationUpdate (r : MasterArbitrationUpdateMsg)
  | setForwardingPipelineConfig (r : SetForwardingPipelineConfigRequest)
  | write (r : WriteRequest)
  | read (r : ReadRequest)
  | packetIn (payload : Nat)
  | idleTimeout (payload : Nat)
deriving DecidableEq, Repr

/-! ## `SwitchConnection` state and operations

The observable state of one connection: the outbound `requests_stream`,
the dispatcher (with its four delivery queues), the synchronous transport
calls already issued, and everything printed.  Each Python method becomes
a function on this state. -/

structure ConnState where
  device_id : Nat
  requests_stream : IterableQueue StreamMessageRequest
  dispatcher : StreamDispatcher
  transport_calls : List UnaryCall
  printed : List PrintEvent
deriving DecidableEq, Repr

/-- `MasterArbitrationUpdate`: build the arbitration request (device id,
election id high 0 / low 1); on dry-run print it and return `None`;
otherwise put it on `requests_stream` and blocking-`get` the next
arbitration payload (modelled on the queue's explicit contents: an empty
queue blocks, giving no result and no state change past the put). -/
def MasterArbitrationUpdate (st : ConnState) (dry_run : Bool) :
    Option Nat × ConnState :=
  let request : MasterArbitrationUpdateMsg :=
    { device_id := st.device_id, election_id := { high := 0, low := 1 } }
  if dry_run then
    (none, { st with printed := st.printed ++ [.masterArbitrationUpdate request] })
  else
    let st1 := { st with
      requests_stream := st.requests_stream.put (.arbitration request) }
    match st1.dispatcher.arbitration_queue with
    | [] => (none, st1)
    | p :: rest =>
        (some p, { st1 with dispatcher := { st1.dispatcher with arbitration_queue := rest } })

/-- `SetForwardingPipelineConfig`: build the request (election id low 1,
device id, p4info, serialized device config, VERIFY_AND_COMMIT); dry-run
prints it, otherwise the unary `SetForwardingPipelineConfig` stub call is
issued.  `device_config` stands for `self.buildDeviceConfig(**kwargs)`. -/
def SetForwardingPipelineConfig (st : ConnState) (p4info : Nat)
    (device_config : Nat) (dry_run : Bool) : ConnState :=
  let request : SetForwardingPipelineConfigRequest :=
    { device_id := st.device_id
      election_id_low := 1
      p4info := p4info
      p4_device_config := device_config
      action := .VERIFY_AND_COMMIT }
  if dry_run then
    { st with printed := st.printed ++ [.setForwardingPipelineConfig request] }
  else
    { st with transport_calls := st.transport_calls ++ [.setForwardingPipelineConfig request] }

/-- `WriteTableEntry`: single-update write request; the update type is
MODIFY when `table_entry.is_default_action` and INSERT otherwise. -/
def WriteTableEntry (st : ConnState) (table_entry : TableEntry)
    (dry_run : Bool) : ConnState :=
  let request : WriteRequest :=
    { device_id := st.device_id
      election_id_low := 1
      updates := [{ type := if table_entry.is_default_action then .MODIFY else .INSERT
                    entity := .table_entry table_entry }] }
  if dry_run then
    { st with printed := st.printed ++ [.write request] }
  else
    { st with transport_calls := st.transport_calls ++ [.write request] }

/-- `DeleteTableEntry`: single-update write request with type DELETE. -/
def DeleteTableEntry (st : ConnState) (table_entry : TableEntry)
    (dry_run : Bool) : ConnState :=
  let request : WriteRequest :=
    { device_id := st.device_id
      election_id_low := 1
      updates := [{ type := .DELETE, entity := .table_entry table_entry }] }
  if dry_run then
    { st with printed := st.printed ++ [.write request] }
  else
    { st with transport_calls := st.transport_calls ++ [.write request] }

/-- `ReadTableEntries`: read request with one table-entry entity whose
table id is the given one, or the 0 wildcard when `None`; dry-run prints,
otherwise the streaming `Read` call is issued (its response chunks are
outside the model). -/
def ReadTableEntries (st : ConnState) (table_id : Option Nat)
    (dry_run : Bool) : ConnState :=
  let request : ReadRequest :=
    { device_id := st.device_id
      entities := [.table_entry (match table_id with | some t => t | none => 0)] }
  if dry_run then
    { st with printed := st.printed ++ [.read request] }
  else
    { st with transport_calls := st.transport_calls ++ [.read request] }

/-- `ReadCounters`: read request with one counter entity (0 wildcard when
`counter_id` is `None`; index set only when given). -/
def ReadCounters (st : ConnState) (counter_id : Option Nat)
    (index : Option Nat) (dry_run : Bool) : ConnState :=
  let request : ReadRequest :=
    { device_id := st.device_id
      entities := [.counter_entry (match counter_id with | some c => c | none => 0) index] }
  if dry_run then
    { st with printed := st.printed ++ [.read request] }
  else
    { st with transport_calls := st.transport_calls ++ [.read request] }

/-- `WritePREEntry`: single-update INSERT of a packet-replication-engine
entry. -/
def WritePREEntry (st : ConnState) (pre_entry : Nat) (dry_run : Bool) : ConnState :=
  let request : WriteRequest :=
    { device_id := st.device_id
      election_id_low := 1
      updates := [{ type := .INSERT, entity := .packet_replication_engine_entry pre_entry }] }
  if dry_run then
    { st with printed := st.printed ++ [.write request] }
  else
    { st with transport_calls := st.transport_calls ++ [.write request] }

/-- `PacketIn`: first a blocking `get` from `packet_in_queue` (before the
dry-run check!), then: dry-run prints the pulled payload and returns
`None`, otherwise the payload is returned.  An empty queue blocks — the
model leaves the state unchanged with no result in that case. -/
def PacketIn (st : ConnState) (dry_run : Bool) : Option Nat × ConnState :=
  match st.dispatcher.packet_in_queue with
  | [] => (none, st)
  | request :: rest =>
      let st1 := { st with dispatcher := { st.dispatcher with packet_in_queue := rest } }
      if dry_run then
        (none, { st1 with printed := st1.printed ++ [.packetIn request] })
      else
        (some request, st1)

/-- `IdleTimeoutNotification`: same shape as `PacketIn`, on
`timeout_queue`. -/
def IdleTimeoutNotification (st : ConnState) (dry_run : Bool) : Option Nat × ConnState :=
  match st.dispatcher.timeout_queue with
  | [] => (none, st)
  | msg :: rest =>
      let st1 := { st with dispatcher := { st.dispatcher with timeout_queue := rest } }
      if dry_run then
        (none, { st1 with printed := st1.printed ++ [.idleTimeout msg] })
      else
        (some msg, st1)

/-! ### `PacketOut` and the metadata encoding -/

/-- Fixed-length big-endian byte string of `value` (most significant byte
first), `length` bytes. -/
def bigEndianBytes (value : Nat) : Nat → List Nat
  | 0 => []
  | n + 1 => bigEndianBytes (value / 256) n ++ [value % 256]

/-- Python `int.to_bytes(length, 'big')` on a nonnegative int: the
`length`-byte big-endian representation, or `OverflowError` (here `none`)
when the value does not fit in `length` bytes. -/
def to_bytes (value : Nat) (length : Nat) : Option (List Nat) :=
  if value < 256 ^ length then some (bigEndianBytes value length) else none

/-- One caller-supplied metadata dict `{"value": ..., "bitwidth": ...}`. -/
structure MetaInput where
  value : Nat
  bitwidth : Nat
deriving DecidableEq, Repr

/-- The metadata-building loop of `PacketOut`: ids assigned sequentially
from `i`, each value encoded with
`meta["value"].to_bytes(meta["bitwidth"], 'big')`; an `OverflowError`
aborts the whole construction. -/
def buildMetadataList (i : Nat) : List MetaInput → Option (List PacketMetadata)
  | [] => some []
  | meta :: rest =>
      match to_bytes meta.value meta.bitwidth with
      | none => none
      | some v =>
          match buildMetadataList (i + 1) rest with
          | none => none
          | some tail => some ({ metadata_id := i, value := v } :: tail)

/-- `PacketOut` (no dry-run parameter): build the packet-out message with
the metadata list (ids starting at 1) and put it on `requests_stream`;
`none` when the metadata encoding raises. -/
def PacketOut (st : ConnState) (payload : Nat) (metadatas : List MetaInput) :
    Option ConnState :=
  match buildMetadataList 1 metadatas with
  | none => none
  | some metadata_list =>
      some { st with
        requests_stream :=
          st.requests_stream.put (.packet { payload := payload, metadata := metadata_list }) }

/-- `SwitchConnection.shutdown`: close the outbound queue and stop the
dispatcher.  Total — nothing here can raise. -/
def shutdown (st : ConnState) : ConnState :=
  { st with
    requests_stream := st.requests_stream.close
    dispatcher := st.dispatcher.stop }

/-! ## The process-wide registry and `ShutdownAllSwitchConnections`

`connections` is the list of all constructed connections, in construction
order.  `ShutdownAllSwitchConnections` is the plain loop
`for c in connections: c.shutdown()` — it has no exception handling, so a
`shutdown()` that raises propagates out of the loop and the remaining
connections are not visited.  The real `shutdown` is total, so to examine
the loop under the claims' hypothetical of a raising shutdown, each
registered connection carries a `shutdown_raises` flag abstracting whether
its `shutdown()` call raises. -/

structure RegConn where
  shutdown_raises : Bool
  conn : ConnState
deriving DecidableEq, Repr

/-- `c.shutdown()` for a registered connection: either the real (total)
`shutdown`, or a raise. -/
def RegConn.shutdownCall (c : RegConn) : Option RegConn :=
  if c.shutdown_raises then none else some { c with conn := shutdown c.conn }

/-- `ShutdownAllSwitchConnections`: visit the registered connections in
order; a raising `shutdown()` propagates, aborting the loop.  The result
is the registry's state after the loop (each connection as mutated so
far) together with `true` when an exception escaped. -/
def ShutdownAllSwitchConnections : List RegConn → List RegConn × Bool
  | [] => ([], false)
  | c :: rest =>
      match RegConn.shutdownCall c with
      | none => (c :: rest, true)
      | some c' =>
          let (rest', raised) := ShutdownAllSwitchConnections rest
          (c' :: rest', raised)

/-! ## `GrpcRequestLogger`

The sink file's contents are a `String`.  `__init__` opens the file in
`'w'` mode and writes the empty string — the one truncation.
`log_message` opens in `'a'` mode and appends a timestamped record; the
body is rendered with `str`, written verbatim when its length is under
`MSG_LOG_MAX_LEN` and replaced by the too-long placeholder otherwise. -/

def MSG_LOG_MAX_LEN : Nat := 1024

/-- Sink contents after `GrpcRequestLogger.__init__`, whatever the file
held before. -/
def loggerInit (_prior : String) : String := ""

/-- The `"\n[%s] %s\n---\n"` header of one record. -/
def logEntryHeader (ts method_name : String) : String :=
  "\n[" ++ ts ++ "] " ++ method_name ++ "\n---\n"

/-- The placeholder written instead of an over-long body. -/
def logTooLong (n : Nat) : String :=
  "Message too long (" ++ toString n ++ " bytes)! Skipping log...\n"

/-- One full record as `log_message` renders it. -/
def logEntry (ts method_name body : String) : String :=
  logEntryHeader ts method_name ++
    (if body.length < MSG_LOG_MAX_LEN then body else logTooLong body.length) ++
    "---\n"

/-- `log_message`: append one record to the sink (mode `'a'`: existing
contents are preserved). -/
def log_message (sink : String) (ts method_name body : String) : String :=
  sink ++ logEntry ts method_name body

/-! ## Concrete states for witnesses and counterexamples -/

/-- A connection whose dispatcher has already routed one packet-in payload
(`5`) and one idle-timeout payload (`6`). -/
def sampleConn : ConnState :=
  { device_id := 0
    requests_stream := []
    dispatcher := { running := true
                    arbitration_queue := []
                    packet_in_queue := [5]
                    timeout_queue := [6]
                    error_queue := []
                    log := [] }
    transport_calls := []
    printed := [] }

/-- The operation performed no enqueue, no transport call, and no pull:
outbound queue, transport-call list, and all four delivery queues are
unchanged. -/
def NoSideEffects (st st' : ConnState) : Prop :=
  st'.requests_stream = st.requests_stream ∧
  st'.transport_calls = st.transport_calls ∧
  st'.dispatcher.arbitration_queue = st.dispatcher.arbitration_queue ∧
  st'.dispatcher.packet_in_queue = st.dispatcher.packet_in_queue ∧
  st'.dispatcher.timeout_queue = st.dispatcher.timeout_queue ∧
  st'.dispatcher.error_queue = st.dispatcher.error_queue

lemma isWellFormed_arbitration (p : Nat) :
    (StreamMessageResponse.arbitration p).isWellFormed = true := rfl

lemma isWellFormed_packet (p : Nat) :
    (StreamMessageResponse.packet p).isWellFormed = true := rfl

lemma isWellFormed_timeout (p : Nat) :
    (StreamMessageResponse.idle_timeout_notification p).isWellFormed = true := rfl

lemma isWellFormed_error (p : Nat) :
    (StreamMessageResponse.error p).isWellFormed = true := rfl

lemma isWellFormed_unknown (r : Nat) :
    (StreamMessageResponse.unknown r).isWellFormed = false := rfl

/-- Count of payloads routed by the four queues together. -/
lemma filterMap_payload_length (msgs : List StreamMessageResponse) :
    (msgs.filterMap arbitrationPayload).length + (msgs.filterMap packetPayload).length +
      (msgs.filterMap timeoutPayload).length + (msgs.filterMap errorPayload).length =
      (msgs.filter (fun m => m.isWellFormed)).length := by
  induction msgs with
  | nil => rfl
  | cons m rest ih =>
      cases m <;>
        simp [arbitrationPayload, packetPayload, timeoutPayload, errorPayload,
          List.filterMap_cons, List.filter_cons, isWellFormed_arbitration,
          isWellFormed_packet, isWellFormed_timeout, isWellFormed_error,
          isWellFormed_unknown] <;>
        omega

/-- A 64-character body fragment, used to build over-threshold log
bodies. -/
def chunk64 : String :=
  "aaaaaaaaaaaaaaaaaaaaaaaaaaaaaaaaaaaaaaaaaaaaaaaaaaaaaaaaaaaaaaaa"

/-- A rendered body of exactly `MSG_LOG_MAX_LEN = 1024` characters. -/
def body1024 : String :=
  chunk64 ++ chunk64 ++ chunk64 ++ chunk64 ++ chunk64 ++ chunk64 ++ chunk64 ++ chunk64 ++
    chunk64 ++ chunk64 ++ chunk64 ++ chunk64 ++ chunk64 ++ chunk64 ++ chunk64 ++ chunk64

/-! ## Claim theorems -/

/-- C4: for every finite sequence of inbound messages with arbitrarily
interleaved variants processed by the dispatch loop starting from a fresh
dispatcher (no stop requested), each of the four delivery queues receives
exactly the subsequence of payloads whose variant matches that queue, in
the original relative arrival order, and the total number of pushes is
exactly one per well-formed message. -/
theorem dispatch_loop_demultiplexes (msgs : List StreamMessageResponse) :
    (dispatch_loop StreamDispatcher.init msgs).arbitration_queue =
      msgs.filterMap arbitrationPayload ∧
    (dispatch_loop StreamDispatcher.init msgs).packet_in_queue =
      msgs.filterMap packetPayload ∧
    (dispatch_loop StreamDispatcher.init msgs).timeout_queue =
      msgs.filterMap timeoutPayload ∧
    (dispatch_loop StreamDispatcher.init msgs).error_queue =
      msgs.filterMap errorPayload ∧
    (dispatch_loop StreamDispatcher.init msgs).arbitration_queue.length +
        (dispatch_loop StreamDispatcher.init msgs).packet_in_queue.length +
        (dispatch_loop StreamDispatcher.init msgs).timeout_queue.length +
        (dispatch_loop StreamDispatcher.init msgs).error_queue.length =
      (msgs.filter (fun m => m.isWellFormed)).length := by
  have hrun : dispatch_loop StreamDispatcher.init msgs =
      msgs.foldl dispatchStep StreamDispatcher.init :=
    dispatch_loop_of_running msgs StreamDispatcher.init rfl
  refine ⟨?_, ?_, ?_, ?_, ?_⟩
  · rw [hrun]
    simpa [StreamDispatcher.init] using foldl_dispatchStep_arbitration msgs StreamDispatcher.init
  · rw [hrun]
    simpa [StreamDispatcher.init] using foldl_dispatchStep_packet msgs StreamDispatcher.init
  · rw [hrun]
    simpa [StreamDispatcher.init] using foldl_dispatchStep_timeout msgs StreamDispatcher.init
  · rw [hrun]
    simpa [StreamDispatcher.init] using foldl_dispatchStep_error msgs StreamDispatcher.init
  · rw [hrun, foldl_dispatchStep_arbitration, foldl_dispatchStep_packet,
      foldl_dispatchStep_timeout, foldl_dispatchStep_error]
    simp [StreamDispatcher.init, filterMap_payload_length]

/-- C5: for every finite sequence of puts onto the outbound queue followed
by `close()`, iterating the queue yields exactly the put messages in FIFO
order, and iteration terminates the moment the sentinel is dequeued:
whatever sits in the queue after the sentinel is never reached, and the
yielded sequence (of type `List α`) never contains the sentinel. -/
theorem iterableQueue_fifo {α : Type} (ps : List α) (extra : IterableQueue α) :
    IterableQueue.iterate
        (IterableQueue.close (ps.foldl IterableQueue.put ([] : IterableQueue α))) = ps ∧
    IterableQueue.iterate
        (IterableQueue.close (ps.foldl IterableQueue.put ([] : IterableQueue α)) ++ extra) =
      ps := by
  have h1 : ∀ tail : IterableQueue α,
      IterableQueue.iterate (ps.map QItem.msg ++ QItem.sentinel :: tail) = ps := by
    intro tail
    simpa [IterableQueue.iterate] using
      IterableQueue.iterate_msgs_append ps (QItem.sentinel :: tail)
  constructor
  · simpa [IterableQueue.close, IterableQueue.put_foldl] using h1 []
  · simpa [IterableQueue.close, IterableQueue.put_foldl, List.append_assoc] using h1 extra

/-- C6: an inbound message in which none of the four variants is populated
is printed as a diagnostic and dropped: all four delivery queues are
unchanged, and the dispatch loop continues with the remaining messages
exactly as if the anomalous message had been routed (nothing is raised out
of the loop, so nothing reaches a blocked caller). -/
theorem unknown_message_dropped (s : StreamDispatcher) (r : Nat)
    (rest : List StreamMessageResponse) (h : s.running = true) :
    (dispatchStep s (.unknown r)).arbitration_queue = s.arbitration_queue ∧
    (dispatchStep s (.unknown r)).packet_in_queue = s.packet_in_queue ∧
    (dispatchStep s (.unknown r)).timeout_queue = s.timeout_queue ∧
    (dispatchStep s (.unknown r)).error_queue = s.error_queue ∧
    (dispatchStep s (.unknown r)).log = s.log ++ [.unknown r] ∧
    dispatch_loop s (StreamMessageResponse.unknown r :: rest) =
      dispatch_loop (dispatchStep s (.unknown r)) rest := by
  refine ⟨rfl, rfl, rfl, rfl, rfl, ?_⟩
  simp [dispatch_loop, h]

/-- Witness for C6 at a concrete dispatcher state. -/
theorem unknown_message_dropped_witness :
    (dispatchStep StreamDispatcher.init (.unknown 7)).log =
      StreamDispatcher.init.log ++ [.unknown 7] :=
  (unknown_message_dropped StreamDispatcher.init 7 [.packet 3] rfl).2.2.2.2.1

/-- C7: `WriteTableEntry` issues a write request containing exactly one
update whose type is MODIFY exactly when the entry is marked
`is_default_action` and INSERT otherwise, and `DeleteTableEntry` issues a
write request containing exactly one update of type DELETE. -/
theorem writeTableEntry_single_update (st : ConnState) (te : TableEntry) :
    (∃ u : Update,
      (WriteTableEntry st te false).transport_calls =
        st.transport_calls ++ [UnaryCall.write
          { device_id := st.device_id, election_id_low := 1, updates := [u] }] ∧
      (u.type = UpdateType.MODIFY ↔ te.is_default_action = true) ∧
      (u.type = UpdateType.INSERT ↔ te.is_default_action = false)) ∧
    (∃ u : Update,
      (DeleteTableEntry st te false).transport_calls =
        st.transport_calls ++ [UnaryCall.write
          { device_id := st.device_id, election_id_low := 1, updates := [u] }] ∧
      u.type = UpdateType.DELETE) := by
  constructor
  · refine ⟨{ type := if te.is_default_action then .MODIFY else .INSERT
              entity := .table_entry te }, rfl, ?_, ?_⟩ <;>
      cases h : te.is_default_action <;> simp [h]
  · exact ⟨{ type := .DELETE, entity := .table_entry te }, rfl, rfl⟩

/-- C9: `PacketIn` and `IdleTimeoutNotification` with dry-run true still
perform the blocking pull first: the oldest payload is removed from the
corresponding delivery queue, printed, and `None` is returned — so the
payload is consumed and lost to subsequent non-dry-run callers. -/
theorem dry_run_pull_consumes (st : ConnState) (p q : Nat) (ps qs : List Nat) :
    (PacketIn { st with dispatcher :=
        { st.dispatcher with packet_in_queue := p :: ps } } true).1 = none ∧
    ((PacketIn { st with dispatcher :=
        { st.dispatcher with packet_in_queue := p :: ps } } true).2).dispatcher.packet_in_queue =
      ps ∧
    ((PacketIn { st with dispatcher :=
        { st.dispatcher with packet_in_queue := p :: ps } } true).2).printed =
      st.printed ++ [.packetIn p] ∧
    (IdleTimeoutNotification { st with dispatcher :=
        { st.dispatcher with timeout_queue := q :: qs } } true).1 = none ∧
    ((IdleTimeoutNotification { st with dispatcher :=
        { st.dispatcher with timeout_queue := q :: qs } } true).2).dispatcher.timeout_queue =
      qs ∧
    ((IdleTimeoutNotification { st with dispatcher :=
        { st.dispatcher with timeout_queue := q :: qs } } true).2).printed =
      st.printed ++ [.idleTimeout q] :=
  ⟨rfl, rfl, rfl, rfl, rfl, rfl⟩

/-- C10: a second `shutdown` raises nothing (it is a total function) and
leaves the connection in the same shut-down state apart from one more
close sentinel on the outbound queue: `close` only puts the sentinel and
`stop` only clears the running flag. -/
theorem shutdown_twice_safe (st : ConnState) :
    (shutdown (shutdown st)).requests_stream =
      (shutdown st).requests_stream ++ [QItem.sentinel] ∧
    (shutdown (shutdown st)).dispatcher = (shutdown st).dispatcher ∧
    (shutdown (shutdown st)).transport_calls = (shutdown st).transport_calls ∧
    (shutdown (shutdown st)).printed = (shutdown st).printed ∧
    (shutdown (shutdown st)).dispatcher.running = false :=
  ⟨rfl, rfl, rfl, rfl, rfl⟩

/-- C1 counterexample: the dry-run invariant does not hold across the whole
operation surface.  On a connection holding one queued packet-in payload
and one idle-timeout payload, `PacketIn` and `IdleTimeoutNotification`
invoked with dry-run true still consume from their delivery queues, and
`PacketOut` (which accepts no dry-run flag at all) enqueues on the
outbound queue. -/
theorem dry_run_invariant_counterexample :
    ((PacketIn sampleConn true).2).dispatcher.packet_in_queue ≠
      sampleConn.dispatcher.packet_in_queue ∧
    ((IdleTimeoutNotification sampleConn true).2).dispatcher.timeout_queue ≠
      sampleConn.dispatcher.timeout_queue ∧
    PacketOut sampleConn 9 [] =
      some { sampleConn with requests_stream :=
        sampleConn.requests_stream.put (.packet { payload := 9, metadata := [] }) } := by
  decide

/-- C1 amended: dry-run true performs no enqueue, no transport call, and
no pull for `MasterArbitrationUpdate`, `SetForwardingPipelineConfig`,
`WriteTableEntry`, `DeleteTableEntry`, `ReadTableEntries`, `ReadCounters`
and `WritePREEntry`; but `PacketIn` and `IdleTimeoutNotification` perform
the blocking pull before the dry-run check and so consume the oldest
queued payload even under dry-run, and `PacketOut` accepts no dry-run flag
and always enqueues on the outbound queue. -/
theorem dry_run_no_enqueue_no_call_no_pull (st : ConnState)
    (p4info device_config pre payload p q : Nat) (te : TableEntry)
    (table_id counter_id index : Option Nat) (ps qs : List Nat) :
    NoSideEffects st (MasterArbitrationUpdate st true).2 ∧
    NoSideEffects st (SetForwardingPipelineConfig st p4info device_config true) ∧
    NoSideEffects st (WriteTableEntry st te true) ∧
    NoSideEffects st (DeleteTableEntry st te true) ∧
    NoSideEffects st (ReadTableEntries st table_id true) ∧
    NoSideEffects st (ReadCounters st counter_id index true) ∧
    NoSideEffects st (WritePREEntry st pre true) ∧
    ((PacketIn { st with dispatcher :=
        { st.dispatcher with packet_in_queue := p :: ps } } true).2).dispatcher.packet_in_queue =
      ps ∧
    ((IdleTimeoutNotification { st with dispatcher :=
        { st.dispatcher with timeout_queue := q :: qs } } true).2).dispatcher.timeout_queue =
      qs ∧
    PacketOut st payload [] =
      some { st with requests_stream :=
        st.requests_stream.put (.packet { payload := payload, metadata := [] }) } :=
  ⟨⟨rfl, rfl, rfl, rfl, rfl, rfl⟩, ⟨rfl, rfl, rfl, rfl, rfl, rfl⟩,
   ⟨rfl, rfl, rfl, rfl, rfl, rfl⟩, ⟨rfl, rfl, rfl, rfl, rfl, rfl⟩,
   ⟨rfl, rfl, rfl, rfl, rfl, rfl⟩, ⟨rfl, rfl, rfl, rfl, rfl, rfl⟩,
   ⟨rfl, rfl, rfl, rfl, rfl, rfl⟩, rfl, rfl, rfl⟩

/-- C2 counterexample: `ShutdownAllSwitchConnections` is a bare loop with
no per-connection exception isolation.  With three registered connections
of which the second one's `shutdown()` raises, the exception aborts the
loop: the third connection's dispatcher is still running afterwards. -/
theorem shutdownAll_counterexample :
    (ShutdownAllSwitchConnections
        [{ shutdown_raises := false, conn := sampleConn },
         { shutdown_raises := true, conn := sampleConn },
         { shutdown_raises := false, conn := sampleConn }]).2 = true ∧
    ((ShutdownAllSwitchConnections
        [{ shutdown_raises := false, conn := sampleConn },
         { shutdown_raises := true, conn := sampleConn },
         { shutdown_raises := false, conn := sampleConn }]).1.map
      (fun c => c.conn.dispatcher.running)) = [false, true, true] := by
  decide

/-- C2 amended: bulk shutdown shuts the registered connections down in
registration order up to the first connection whose `shutdown()` raises:
every earlier connection ends with a closed outbound queue and a stopped
dispatcher, while the failing connection and all later ones are left
untouched and the exception propagates out of the loop. -/
theorem shutdownAll_stops_earlier_conns (before after : List RegConn) (f : RegConn)
    (hb : ∀ c ∈ before, c.shutdown_raises = false)
    (hf : f.shutdown_raises = true) :
    ShutdownAllSwitchConnections (before ++ f :: after) =
      (before.map (fun c => { c with conn := shutdown c.conn }) ++ f :: after, true) ∧
    ∀ c ∈ before.map (fun c => { c with conn := shutdown c.conn }),
      c.conn.dispatcher.running = false := by
  constructor
  · induction before with
    | nil => simp [ShutdownAllSwitchConnections, RegConn.shutdownCall, hf]
    | cons c rest ih =>
        have hc : c.shutdown_raises = false := hb c (by simp)
        have hrest := ih (fun x hx => hb x (by simp [hx]))
        simp [ShutdownAllSwitchConnections, RegConn.shutdownCall, hc, hrest]
  · intro c hc
    simp only [List.mem_map] at hc
    obtain ⟨x, _, rfl⟩ := hc
    rfl

/-- Witness for the amended C2 at a concrete two-connection registry. -/
theorem shutdownAll_stops_earlier_conns_witness :
    ShutdownAllSwitchConnections
        [{ shutdown_raises := false, conn := sampleConn },
         { shutdown_raises := true, conn := sampleConn }] =
      ([{ shutdown_raises := false, conn := shutdown sampleConn },
        { shutdown_raises := true, conn := sampleConn }], true) :=
  (shutdownAll_stops_earlier_conns [{ shutdown_raises := false, conn := sampleConn }] []
      { shutdown_raises := true, conn := sampleConn } (by decide) rfl).1

/-- C3 evaluation at the failing input: `PacketOut` passes the declared
bit-width straight to `to_bytes`, which takes a byte count, so a field
value 300 with declared bit-width 16 is encoded as a 16-byte big-endian
string (fourteen zero bytes then 0x01,0x2C), not the claimed 2-byte
0x01,0x2C; and a value exceeding the 16-bit capacity (70000) is accepted
(it fits in 16 bytes) instead of making construction fail. -/
theorem packetOut_encodes_bitwidth_as_byte_count :
    buildMetadataList 1 [{ value := 300, bitwidth := 16 }] =
      some [{ metadata_id := 1,
              value := [0, 0, 0, 0, 0, 0, 0, 0, 0, 0, 0, 0, 0, 0, 1, 44] }] ∧
    buildMetadataList 1 [{ value := 300, bitwidth := 16 }] ≠
      some [{ metadata_id := 1, value := [1, 44] }] ∧
    (buildMetadataList 1 [{ value := 70000, bitwidth := 16 }]).isSome = true := by
  decide

/-- C8 counterexample: the elision threshold is exclusive, not inclusive.
A body whose rendered length is exactly 1024 characters does not exceed
1024, so the claim requires it to be written verbatim, but `log_message`
tests `len(msg) < MSG_LOG_MAX_LEN` and writes the too-long placeholder
instead. -/
theorem log_message_threshold_counterexample :
    body1024.length ≤ MSG_LOG_MAX_LEN ∧
    log_message "" "ts" "method" body1024 ≠
      "" ++ ((logEntryHeader "ts" "method" ++ body1024) ++ "---\n") ∧
    log_message "" "ts" "method" body1024 =
      "" ++ ((logEntryHeader "ts" "method" ++ logTooLong 1024) ++ "---\n") := by
  have h64 : chunk64.length = 64 := by decide
  have hlen : body1024.length = 1024 := by
    simp [body1024, String.length_append, h64]
  have hcond : ¬ (body1024.length < MSG_LOG_MAX_LEN) := by
    simp [hlen, MSG_LOG_MAX_LEN]
  have heq : log_message "" "ts" "method" body1024 =
      "" ++ ((logEntryHeader "ts" "method" ++ logTooLong 1024) ++ "---\n") := by
    simp [log_message, logEntry, hcond, hlen, MSG_LOG_MAX_LEN]
  refine ⟨by simp [hlen, MSG_LOG_MAX_LEN], ?_, heq⟩
  intro h
  rw [heq] at h
  have hl := congrArg String.length h
  have htl : (logTooLong 1024).length = 47 := by decide
  have hempty : ("" : String).length = 0 := by decide
  have hfoot : ("---\n" : String).length = 4 := by decide
  simp only [String.length_append, hlen, htl, hempty, hfoot] at hl
  omega

/-- C8 amended: `log_message` writes the rendered body verbatim when its
length is strictly below 1024 characters and the too-long placeholder when
the length is 1024 or more; every call appends to the sink (the existing
contents are a prefix of the result, so appends never truncate), and the
sink is truncated exactly once, at logger creation, to the empty string. -/
theorem log_message_threshold (sink ts method_name body : String) :
    (body.length < MSG_LOG_MAX_LEN →
      log_message sink ts method_name body =
        sink ++ ((logEntryHeader ts method_name ++ body) ++ "---\n")) ∧
    (MSG_LOG_MAX_LEN ≤ body.length →
      log_message sink ts method_name body =
        sink ++ ((logEntryHeader ts method_name ++ logTooLong body.length) ++ "---\n")) ∧
    log_message sink ts method_name body = sink ++ logEntry ts method_name body ∧
    loggerInit sink = "" := by
  refine ⟨?_, ?_, rfl, rfl⟩
  · intro h
    simp [log_message, logEntry, h]
  · intro h
    simp [log_message, logEntry, Nat.not_lt.mpr h]

/-- Witness for the amended C8: a short body is written verbatim, a
2000-character body is elided. -/
theorem log_message_threshold_witness :
    log_message "s" "t" "m" "b" =
      "s" ++ ((logEntryHeader "t" "m" ++ "b") ++ "---\n") ∧
    log_message "s" "t" "m" (body1024 ++ chunk64) =
      "s" ++ ((logEntryHeader "t" "m" ++
        logTooLong (body1024 ++ chunk64).length) ++ "---\n") :=
  ⟨(log_message_threshold "s" "t" "m" "b").1 (by decide),
   (log_message_threshold "s" "t" "m" (body1024 ++ chunk64)).2.1
     (by simp [MSG_LOG_MAX_LEN, body1024, String.length_append,
           (by decide : chunk64.length = 64)])⟩

end P4Switch
